import Mathlib

/-!
Shallow embedding of the bot control and state synchronization subsystem of
the Rico-s-Bot dashboard.  The embedded code is the `useBot` hook together
with the type declarations in `src/src/lib/types.ts` and the form-level
guard in `src/src/components/BuyConditionsForm.tsx`.

JavaScript numbers are modelled as rationals, JavaScript strings as `String`,
optional object fields as `Option`.  Each asynchronous controller operation
is modelled as a pure state transformer that additionally receives the
outcome of its single collaborator call (the supabase function invocation or
the settings-table round trip) and returns the successor state together with
the list of externally visible events it emits (collaborator invocations,
persistence calls and toast notifications), in program order.
-/

namespace RicoBot

/-- `BotStatus` enumeration from `src/src/lib/types.ts`. -/
inductive BotStatus where
  | idle
  | running
  | error
  | starting
  | stopping
deriving DecidableEq

/-- `BuyConditions` interface from `src/src/lib/types.ts`. -/
structure BuyConditions where
  minimum_liquidity : ℚ
  slippage : ℚ
  allowed_dexes : List String
  require_verified_contract : Bool
  max_priority_fee : ℚ
  enable_antibot : Bool
deriving DecidableEq

/-- `SellConditions` interface from `src/src/lib/types.ts`. -/
structure SellConditions where
  target_profit : ℚ
  stop_loss : ℚ
  max_holding_time : ℤ
  sell_on_volatility_spike : Bool
deriving DecidableEq

/-- `RiskControl` interface from `src/src/lib/types.ts`. -/
structure RiskControl where
  position_size_percentage : ℚ
  max_open_trades : ℤ
  cooldown_period : ℤ
deriving DecidableEq

/-- `BotSettings` interface from `src/src/lib/types.ts`. -/
structure BotSettings where
  id : String
  rpc_url : String
  wallet_address : String
  telegram_enabled : Bool
  telegram_token : Option String
  telegram_chat_id : Option String
  buy_conditions : BuyConditions
  sell_conditions : SellConditions
  risk_control : RiskControl
  created_at : String
  updated_at : String
deriving DecidableEq

/-- Lifecycle status of a trade record, from `src/src/lib/types.ts`. -/
inductive TradeStatus where
  | active
  | completed
  | failed
deriving DecidableEq

/-- `TradeHistory` interface from `src/src/lib/types.ts`. -/
structure TradeHistory where
  id : String
  token_address : String
  token_name : String
  token_symbol : String
  entry_price : ℚ
  exit_price : Option ℚ
  amount_spent : ℚ
  amount_received : Option ℚ
  profit_loss_pct : Option ℚ
  tx_sig_buy : String
  tx_sig_sell : Option String
  status : TradeStatus
  created_at : String
  updated_at : String
deriving DecidableEq

/-- `BotStats` interface from `src/src/lib/types.ts`. -/
structure BotStats where
  id : String
  tokens_found : ℤ
  trades_made : ℤ
  profit_loss : ℚ
  updated_at : String
deriving DecidableEq

/-- The five React state cells held by `useBot`:
`botStatus`, `loading`, `settings`, `tradeHistory`, `stats`. -/
structure ControllerState where
  botStatus : BotStatus
  loading : Bool
  settings : Option BotSettings
  tradeHistory : List TradeHistory
  stats : Option BotStats
deriving DecidableEq

/-- A toast notification as issued through `useToast`; `destructive` records
whether the `variant: destructive` flag was set. -/
structure Toast where
  destructive : Bool
  title : String
  description : String
deriving DecidableEq

/-- The payload `data` of a resolved `supabase.functions.invoke` call: an
object that may carry a `status` field. -/
structure StatusPayload where
  status : Option BotStatus
deriving DecidableEq

/-- Outcome of an awaited `supabase.functions.invoke` call: either the await
throws, or it resolves to a `\x7b data, error \x7d` pair. -/
inductive InvokeOutcome where
  | thrown (msg : String)
  | resolved (data : Option StatusPayload) (error : Option String)
deriving DecidableEq

/-- Outcome of a settings-table round trip
(`.insert`/`.update` followed by `.select().single()`): either the persisted
row or an error. -/
inductive UpdateResult where
  | ok (row : BotSettings)
  | err (msg : String)
deriving DecidableEq

/-- The insert payload built by `saveGeneralSettings` when no settings row
exists yet (the `Insert` shape of the `bot_settings` table). -/
structure SettingsInsert where
  rpc_url : String
  wallet_address : String
  telegram_enabled : Bool
  telegram_token : String
  telegram_chat_id : String
  buy_conditions : BuyConditions
  sell_conditions : SellConditions
  risk_control : RiskControl
deriving DecidableEq

/-- The argument object of `saveGeneralSettings`: every field optional. -/
structure GeneralSettingsPatch where
  rpc_url : Option String
  wallet_address : Option String
  telegram_enabled : Option Bool
  telegram_token : Option String
  telegram_chat_id : Option String
deriving DecidableEq

/-- `Partial<BuyConditions>` as passed to `saveBuyConditions`. -/
structure BuyConditionsPatch where
  minimum_liquidity : Option ℚ
  slippage : Option ℚ
  allowed_dexes : Option (List String)
  require_verified_contract : Option Bool
  max_priority_fee : Option ℚ
  enable_antibot : Option Bool
deriving DecidableEq

/-- `Partial<SellConditions>` as passed to `saveSellConditions`. -/
structure SellConditionsPatch where
  target_profit : Option ℚ
  stop_loss : Option ℚ
  max_holding_time : Option ℤ
  sell_on_volatility_spike : Option Bool
deriving DecidableEq

/-- `Partial<RiskControl>` as passed to `saveRiskControl`. -/
structure RiskControlPatch where
  position_size_percentage : Option ℚ
  max_open_trades : Option ℤ
  cooldown_period : Option ℤ
deriving DecidableEq

/-- Externally visible actions performed by the controller, in program
order: gateway invocations, persistence calls and toast notifications. -/
inductive Event where
  | invokeStart
  | invokeStop
  | invokeGetStatus
  | persistUpdateBuy (merged : BuyConditions) (rowId : String)
  | persistUpdateSell (merged : SellConditions) (rowId : String)
  | persistUpdateRisk (merged : RiskControl) (rowId : String)
  | persistUpdateGeneral (patch : GeneralSettingsPatch) (rowId : String)
  | persistInsertSettings (doc : SettingsInsert)
  | toast (t : Toast)
deriving DecidableEq

/-! ### start / stop -/

/-- Success toast of `startBot`. -/
def startToastOk : Toast :=
  ⟨false, "Bot started",
   "Token sniping bot is now running and monitoring for new liquidity events."⟩

/-- Failure toast of `startBot`. -/
def startToastFail : Toast :=
  ⟨true, "Failed to start bot",
   "There was an error starting the token sniping bot."⟩

/-- Success toast of `stopBot`. -/
def stopToastOk : Toast :=
  ⟨false, "Bot stopped", "Token sniping bot has been stopped."⟩

/-- Failure toast of `stopBot`. -/
def stopToastFail : Toast :=
  ⟨true, "Failed to stop bot",
   "There was an error stopping the token sniping bot."⟩

/-- The synchronous segment of `startBot` up to its suspension point: it
sets `loading` to `true` and issues the gateway invocation.  The body never
inspects `loading`. -/
def startBotLaunch (s : ControllerState) : ControllerState × List Event :=
  ({ s with loading := true }, [Event.invokeStart])

/-- `if (error) throw error` folds a resolved error result into the same
catch block as a thrown exception. -/
def outcomeFailed (o : InvokeOutcome) : Bool :=
  match o with
  | .thrown _ => true
  | .resolved _ e => e.isSome

/-- The continuation of `startBot` after the awaited invocation resolves:
try block sets status to the literal `running` (the returned payload is
never read), catch block sets status to `error`; the finally block clears
`loading` on both paths. -/
def startBotSettle (s : ControllerState) (o : InvokeOutcome) :
    ControllerState × List Event :=
  if outcomeFailed o then
    ({ s with botStatus := .error, loading := false },
     [Event.toast startToastFail])
  else
    ({ s with botStatus := .running, loading := false },
     [Event.toast startToastOk])

/-- `startBot`: launch segment followed by the settle segment. -/
def startBot (s : ControllerState) (o : InvokeOutcome) :
    ControllerState × List Event :=
  let l := startBotLaunch s
  let r := startBotSettle l.1 o
  (r.1, l.2 ++ r.2)

/-- The continuation of `stopBot`: try block sets status to the literal
`idle`; the catch block emits the failure toast but does not touch
`botStatus`; the finally block clears `loading` on both paths. -/
def stopBotSettle (s : ControllerState) (o : InvokeOutcome) :
    ControllerState × List Event :=
  if outcomeFailed o then
    ({ s with loading := false }, [Event.toast stopToastFail])
  else
    ({ s with botStatus := .idle, loading := false },
     [Event.toast stopToastOk])

/-- The synchronous segment of `stopBot` up to its suspension point. -/
def stopBotLaunch (s : ControllerState) : ControllerState × List Event :=
  ({ s with loading := true }, [Event.invokeStop])

/-- `stopBot`: launch segment followed by the settle segment. -/
def stopBot (s : ControllerState) (o : InvokeOutcome) :
    ControllerState × List Event :=
  let l := stopBotLaunch s
  let r := stopBotSettle l.1 o
  (r.1, l.2 ++ r.2)

/-- Two `startBot` invocations in rapid succession in the single-threaded
event-loop model: the second call runs its synchronous segment before the
first awaited invocation resolves; the two resolutions are then processed
in order. -/
def rapidDoubleStart (s : ControllerState) (o1 o2 : InvokeOutcome) :
    ControllerState × List Event :=
  let a := startBotLaunch s
  let b := startBotLaunch a.1
  let c := startBotSettle b.1 o1
  let d := startBotSettle c.1 o2
  (d.1, a.2 ++ b.2 ++ c.2 ++ d.2)

/-- Number of gateway start invocations in an event trace. -/
def countInvokeStart (es : List Event) : Nat :=
  es.countP fun e => e = Event.invokeStart

/-! ### status fetch -/

/-- `fetchBotStatus`: destructures only `data` from the resolved invocation
(`data?.status || idle`); a thrown await sets status to `error`. -/
def fetchBotStatus (s : ControllerState) (o : InvokeOutcome) :
    ControllerState × List Event :=
  match o with
  | .thrown _ => ({ s with botStatus := .error }, [Event.invokeGetStatus])
  | .resolved d _ =>
      ({ s with botStatus := (d.bind StatusPayload.status).getD .idle },
       [Event.invokeGetStatus])

/-! ### section merges and saves -/

/-- Toast shown by every save operation when no settings id exists. -/
def noSettingsToast : Toast := ⟨true, "Error", "No settings found to update."⟩

/-- Success toast of `saveBuyConditions`. -/
def buyOkToast : Toast :=
  ⟨false, "Buy conditions updated",
   "Buy conditions have been updated successfully."⟩

/-- Failure toast of `saveBuyConditions`. -/
def buyFailToast : Toast :=
  ⟨true, "Failed to save buy conditions",
   "There was an error updating the buy conditions."⟩

/-- Success toast of `saveSellConditions`. -/
def sellOkToast : Toast :=
  ⟨false, "Sell conditions updated",
   "Sell conditions have been updated successfully."⟩

/-- Failure toast of `saveSellConditions`. -/
def sellFailToast : Toast :=
  ⟨true, "Failed to save sell conditions",
   "There was an error updating the sell conditions."⟩

/-- Success toast of `saveRiskControl`. -/
def riskOkToast : Toast :=
  ⟨false, "Risk control updated",
   "Risk control settings have been updated successfully."⟩

/-- Failure toast of `saveRiskControl`. -/
def riskFailToast : Toast :=
  ⟨true, "Failed to save risk control",
   "There was an error updating the risk control settings."⟩

/-- Success toast of `saveGeneralSettings`. -/
def generalOkToast : Toast :=
  ⟨false, "Settings saved", "General settings have been updated successfully."⟩

/-- Failure toast of `saveGeneralSettings`. -/
def generalFailToast : Toast :=
  ⟨true, "Failed to save settings",
   "There was an error saving the general settings."⟩

/-- Truthiness of `settings?.id`: `null` settings and an empty id string are
both falsy in the `if (!settings?.id)` guard. -/
def settingsIdPresent (s : Option BotSettings) : Bool :=
  match s with
  | none => false
  | some st => st.id != ""

/-- Object spread `\x7b ...current, ...patch \x7d` on `BuyConditions`. -/
def mergeBuyConditions (cur : BuyConditions) (p : BuyConditionsPatch) :
    BuyConditions :=
  { minimum_liquidity := p.minimum_liquidity.getD cur.minimum_liquidity
    slippage := p.slippage.getD cur.slippage
    allowed_dexes := p.allowed_dexes.getD cur.allowed_dexes
    require_verified_contract :=
      p.require_verified_contract.getD cur.require_verified_contract
    max_priority_fee := p.max_priority_fee.getD cur.max_priority_fee
    enable_antibot := p.enable_antibot.getD cur.enable_antibot }

/-- Object spread `\x7b ...current, ...patch \x7d` on `SellConditions`. -/
def mergeSellConditions (cur : SellConditions) (p : SellConditionsPatch) :
    SellConditions :=
  { target_profit := p.target_profit.getD cur.target_profit
    stop_loss := p.stop_loss.getD cur.stop_loss
    max_holding_time := p.max_holding_time.getD cur.max_holding_time
    sell_on_volatility_spike :=
      p.sell_on_volatility_spike.getD cur.sell_on_volatility_spike }

/-- Object spread `\x7b ...current, ...patch \x7d` on `RiskControl`. -/
def mergeRiskControl (cur : RiskControl) (p : RiskControlPatch) : RiskControl :=
  { position_size_percentage :=
      p.position_size_percentage.getD cur.position_size_percentage
    max_open_trades := p.max_open_trades.getD cur.max_open_trades
    cooldown_period := p.cooldown_period.getD cur.cooldown_period }

/-- A patch addressed at one of the four configuration sections. -/
inductive SectionPatch where
  | buy (p : BuyConditionsPatch)
  | sell (p : SellConditionsPatch)
  | risk (p : RiskControlPatch)
  | general (p : GeneralSettingsPatch)

/-- Effect of one section save on the settings document: the named section
column is replaced by the shallow merge of patch into current (buy, sell,
risk), and a general update spreads only the supplied general fields. -/
def mergeSection (cur : BotSettings) (p : SectionPatch) : BotSettings :=
  match p with
  | .buy q => { cur with buy_conditions := mergeBuyConditions cur.buy_conditions q }
  | .sell q => { cur with sell_conditions := mergeSellConditions cur.sell_conditions q }
  | .risk q => { cur with risk_control := mergeRiskControl cur.risk_control q }
  | .general q =>
      { cur with
        rpc_url := q.rpc_url.getD cur.rpc_url
        wallet_address := q.wallet_address.getD cur.wallet_address
        telegram_enabled := q.telegram_enabled.getD cur.telegram_enabled
        telegram_token :=
          match q.telegram_token with
          | some v => some v
          | none => cur.telegram_token
        telegram_chat_id :=
          match q.telegram_chat_id with
          | some v => some v
          | none => cur.telegram_chat_id }

/-- The general-settings fields of a document, as one tuple. -/
def generalOf (s : BotSettings) :
    String × String × Bool × Option String × Option String :=
  (s.rpc_url, s.wallet_address, s.telegram_enabled, s.telegram_token,
   s.telegram_chat_id)

/-- `saveBuyConditions`: guard on `settings?.id`, then one update round trip
carrying the merged section; on success the in-memory settings are replaced
by the persisted row. -/
def saveBuyConditions (s : ControllerState) (p : BuyConditionsPatch)
    (repo : UpdateResult) : ControllerState × Bool × List Event :=
  if settingsIdPresent s.settings then
    match s.settings with
    | some st =>
        let merged := mergeBuyConditions st.buy_conditions p
        match repo with
        | .ok row =>
            ({ s with settings := some row }, true,
             [Event.persistUpdateBuy merged st.id, Event.toast buyOkToast])
        | .err _ =>
            (s, false,
             [Event.persistUpdateBuy merged st.id, Event.toast buyFailToast])
    | none => (s, false, [Event.toast noSettingsToast])
  else
    (s, false, [Event.toast noSettingsToast])

/-- `saveSellConditions`, analogous to `saveBuyConditions`. -/
def saveSellConditions (s : ControllerState) (p : SellConditionsPatch)
    (repo : UpdateResult) : ControllerState × Bool × List Event :=
  if settingsIdPresent s.settings then
    match s.settings with
    | some st =>
        let merged := mergeSellConditions st.sell_conditions p
        match repo with
        | .ok row =>
            ({ s with settings := some row }, true,
             [Event.persistUpdateSell merged st.id, Event.toast sellOkToast])
        | .err _ =>
            (s, false,
             [Event.persistUpdateSell merged st.id, Event.toast sellFailToast])
    | none => (s, false, [Event.toast noSettingsToast])
  else
    (s, false, [Event.toast noSettingsToast])

/-- `saveRiskControl`, analogous to `saveBuyConditions`. -/
def saveRiskControl (s : ControllerState) (p : RiskControlPatch)
    (repo : UpdateResult) : ControllerState × Bool × List Event :=
  if settingsIdPresent s.settings then
    match s.settings with
    | some st =>
        let merged := mergeRiskControl st.risk_control p
        match repo with
        | .ok row =>
            ({ s with settings := some row }, true,
             [Event.persistUpdateRisk merged st.id, Event.toast riskOkToast])
        | .err _ =>
            (s, false,
             [Event.persistUpdateRisk merged st.id, Event.toast riskFailToast])
    | none => (s, false, [Event.toast noSettingsToast])
  else
    (s, false, [Event.toast noSettingsToast])

/-! ### general settings save and defaults -/

/-- `defaultBuyConditions` literal from `saveGeneralSettings`. -/
def defaultBuyConditions : BuyConditions :=
  { minimum_liquidity := 1000
    slippage := 1
    allowed_dexes := ["jupiter", "raydium"]
    require_verified_contract := true
    max_priority_fee := 5 / 1000000
    enable_antibot := true }

/-- `defaultSellConditions` literal from `saveGeneralSettings`. -/
def defaultSellConditions : SellConditions :=
  { target_profit := 20
    stop_loss := 10
    max_holding_time := 60
    sell_on_volatility_spike := false }

/-- `defaultRiskControl` literal from `saveGeneralSettings`. -/
def defaultRiskControl : RiskControl :=
  { position_size_percentage := 5
    max_open_trades := 3
    cooldown_period := 30 }

/-- JavaScript `x || d` on a possibly-undefined string field: `undefined`
and the empty string are both falsy. -/
def jsOrString (x : Option String) (d : String) : String :=
  match x with
  | some v => if v = "" then d else v
  | none => d

/-- JavaScript `x || d` on a possibly-undefined boolean field. -/
def jsOrBool (x : Option Bool) (d : Bool) : Bool :=
  match x with
  | some v => v || d
  | none => d

/-- The insert payload built by `saveGeneralSettings` on the no-id path. -/
def insertedGeneralDoc (g : GeneralSettingsPatch) : SettingsInsert :=
  { rpc_url := jsOrString g.rpc_url "https://api.mainnet-beta.solana.com"
    wallet_address := jsOrString g.wallet_address ""
    telegram_enabled := jsOrBool g.telegram_enabled false
    telegram_token := jsOrString g.telegram_token ""
    telegram_chat_id := jsOrString g.telegram_chat_id ""
    buy_conditions := defaultBuyConditions
    sell_conditions := defaultSellConditions
    risk_control := defaultRiskControl }

/-- `saveGeneralSettings`: inserts a fully defaulted document when no
settings id exists, otherwise updates the existing row with the supplied
general fields; on success the in-memory settings are replaced by the
persisted row. -/
def saveGeneralSettings (s : ControllerState) (g : GeneralSettingsPatch)
    (repo : UpdateResult) : ControllerState × Bool × List Event :=
  if settingsIdPresent s.settings then
    match s.settings with
    | some st =>
        match repo with
        | .ok row =>
            ({ s with settings := some row }, true,
             [Event.persistUpdateGeneral g st.id, Event.toast generalOkToast])
        | .err _ =>
            (s, false,
             [Event.persistUpdateGeneral g st.id, Event.toast generalFailToast])
    | none => (s, false, [Event.toast generalFailToast])
  else
    match repo with
    | .ok row =>
        ({ s with settings := some row }, true,
         [Event.persistInsertSettings (insertedGeneralDoc g),
          Event.toast generalOkToast])
    | .err _ =>
        (s, false,
         [Event.persistInsertSettings (insertedGeneralDoc g),
          Event.toast generalFailToast])

/-! ### form-level guard on the allowed-DEX set -/

/-- The `disabled` expression of the submit button in
`BuyConditionsForm.tsx`: `isSubmitting || selectedDexes.length === 0`. -/
def buySubmitDisabled (isSubmitting : Bool) (selectedDexes : List String) :
    Bool :=
  isSubmitting || selectedDexes.length == 0

/-! ### sample values -/

/-- All-omitted buy patch. -/
def emptyBuyPatch : BuyConditionsPatch := ⟨none, none, none, none, none, none⟩

/-- All-omitted sell patch. -/
def emptySellPatch : SellConditionsPatch := ⟨none, none, none, none⟩

/-- All-omitted risk patch. -/
def emptyRiskPatch : RiskControlPatch := ⟨none, none, none⟩

/-- All-omitted general patch. -/
def emptyGeneralPatch : GeneralSettingsPatch := ⟨none, none, none, none, none⟩

/-- Buy patch that empties the allowed-DEX set. -/
def emptyDexesPatch : BuyConditionsPatch := ⟨none, none, some [], none, none, none⟩

/-- General patch supplying only a wallet address. -/
def walletPatch : GeneralSettingsPatch := ⟨none, some "ABC123", none, none, none⟩

/-- A concrete persisted settings document. -/
def sampleSettings : BotSettings :=
  { id := "settings-1"
    rpc_url := "https://api.mainnet-beta.solana.com"
    wallet_address := ""
    telegram_enabled := false
    telegram_token := none
    telegram_chat_id := none
    buy_conditions := defaultBuyConditions
    sell_conditions := defaultSellConditions
    risk_control := defaultRiskControl
    created_at := "2024-01-01"
    updated_at := "2024-01-01" }

/-- Session-start state: status idle, nothing loaded yet. -/
def initialState : ControllerState := ⟨.idle, false, none, [], none⟩

/-- Idle state with a loaded settings document. -/
def sampleState : ControllerState := ⟨.idle, false, some sampleSettings, [], none⟩

/-- Running state with a loaded settings document. -/
def runningState : ControllerState := ⟨.running, false, some sampleSettings, [], none⟩

/-! ### helper lemmas -/

/-- The settle segment of a start command performs no gateway invocation. -/
theorem startBotSettle_no_invoke (s : ControllerState) (o : InvokeOutcome) :
    countInvokeStart (startBotSettle s o).2 = 0 := by
  unfold startBotSettle
  split <;> rfl

/-! ### C1 -/

/-- Claim C1 counterexample: from the idle initial state, two start
invocations in rapid succession (the second entering before the first
resolves) produce two gateway start invocations, not exactly one: the
claimed re-entrancy no-op does not exist in startBot. -/
theorem startBot_double_invocation_cex :
    countInvokeStart
        (rapidDoubleStart initialState (.resolved none none) (.resolved none none)).2 = 2 ∧
    countInvokeStart
        (rapidDoubleStart initialState (.resolved none none) (.resolved none none)).2 ≠ 1 := by
  decide

/-- Claim C1, amended: startBot has no re-entrancy guard.  Its synchronous
segment sets the loading flag to true (so the UI can disable the buttons)
and unconditionally issues one gateway start invocation without ever
checking the flag; consequently two invocations in rapid succession produce
exactly two gateway start invocations, whatever the prior state. -/
theorem startBot_unguarded_reentrancy (s : ControllerState) (o1 o2 : InvokeOutcome) :
    (startBotLaunch s).1.loading = true ∧
    countInvokeStart (startBotLaunch s).2 = 1 ∧
    countInvokeStart (rapidDoubleStart s o1 o2).2 = 2 := by
  refine ⟨rfl, rfl, ?_⟩
  unfold rapidDoubleStart startBotSettle startBotLaunch
  cases h1 : outcomeFailed o1 <;> cases h2 : outcomeFailed o2 <;>
    simp only [h1, h2, Bool.false_eq_true, if_false, if_true] <;> rfl

/-! ### C3 -/

/-- Claim C3 counterexample: a successful start command whose gateway reply
carries the status `starting` still leaves the in-memory status at the
fixed literal `running`; the returned status value is not adopted. -/
theorem start_ignores_returned_status_cex :
    (startBot sampleState (.resolved (some ⟨some .starting⟩) none)).1.botStatus =
      BotStatus.running ∧
    BotStatus.running ≠ BotStatus.starting := by
  decide

/-- Claim C3, amended: on a successful start command the controller sets
status to the fixed literal `running`, ignoring the status value in the
gateway reply; on failure (thrown or resolved error) it sets status to
`error`; a success toast and a distinct failure toast are emitted. -/
theorem startBot_fixed_running_distinct_toasts (s : ControllerState)
    (d : Option StatusPayload) (m : String) :
    (startBot s (.resolved d none)).1.botStatus = .running ∧
    (startBot s (.resolved d none)).2 = [Event.invokeStart, Event.toast startToastOk] ∧
    (startBot s (.thrown m)).1.botStatus = .error ∧
    (startBot s (.thrown m)).2 = [Event.invokeStart, Event.toast startToastFail] ∧
    (startBot s (.resolved d (some m))).1.botStatus = .error ∧
    startToastOk ≠ startToastFail := by
  refine ⟨rfl, rfl, rfl, rfl, ?_, by decide⟩
  simp [startBot, startBotLaunch, startBotSettle, outcomeFailed]

/-! ### C4 -/

/-- Claim C4 counterexample: a stop command that fails with a thrown
transport error leaves the in-memory status at `running` (unchanged), not
`error` as claimed. -/
theorem stop_failure_status_unchanged_cex :
    (stopBot runningState (.thrown "network down")).1.botStatus = BotStatus.running ∧
    BotStatus.running ≠ BotStatus.error := by
  decide

/-- Claim C4, amended: a successful stop command sets the in-memory status
to `idle` (in particular running to idle), but a failed stop command leaves
the status unchanged and only emits the failure toast — the catch block of
stopBot never writes `error`. -/
theorem stopBot_idle_on_success_unchanged_on_failure (s : ControllerState)
    (d : Option StatusPayload) (m : String) :
    (stopBot s (.resolved d none)).1.botStatus = .idle ∧
    (stopBot s (.resolved d none)).2 = [Event.invokeStop, Event.toast stopToastOk] ∧
    (stopBot s (.thrown m)).1.botStatus = s.botStatus ∧
    (stopBot s (.thrown m)).2 = [Event.invokeStop, Event.toast stopToastFail] ∧
    (stopBot s (.resolved d (some m))).1.botStatus = s.botStatus := by
  refine ⟨rfl, rfl, rfl, rfl, ?_⟩
  simp [stopBot, stopBotLaunch, stopBotSettle, outcomeFailed]

/-! ### C6 -/

/-- Claim C6: the finally block of startBot clears the loading flag on both
the success and the failure path, and a start command that fails with a
thrown transport error leaves status `error` with the flag false. -/
theorem startBot_clears_loading_both_paths (s : ControllerState)
    (m : String) (d : Option StatusPayload) (e : Option String) :
    (startBot s (.thrown m)).1.loading = false ∧
    (startBot s (.resolved d e)).1.loading = false ∧
    (startBot s (.thrown m)).1.botStatus = .error := by
  refine ⟨rfl, ?_, rfl⟩
  cases e <;> simp [startBot, startBotLaunch, startBotSettle, outcomeFailed]

/-! ### C7 -/

/-- Claim C7 counterexample: a status fetch whose invocation resolves with
no data payload (an error result returned without an exception) sets the
in-memory status to `idle`, not to `error` as claimed — even when the prior
status was `running`. -/
theorem fetchStatus_error_result_idle_cex :
    (fetchBotStatus runningState (.resolved none (some "transport error"))).1.botStatus =
      BotStatus.idle ∧
    BotStatus.idle ≠ BotStatus.error := by
  decide

/-- Claim C7, amended: fetchBotStatus sets status to `error` only when the
awaited invocation throws; a resolved reply without a status payload
defaults the status to `idle` (the resolved error field is never read), and
a resolved payload carrying a status is adopted as-is. -/
theorem fetchStatus_thrown_error_else_default_idle (s : ControllerState)
    (m : String) (e : Option String) (st : BotStatus) :
    (fetchBotStatus s (.thrown m)).1.botStatus = .error ∧
    (fetchBotStatus s (.resolved none e)).1.botStatus = .idle ∧
    (fetchBotStatus s (.resolved (some ⟨none⟩) e)).1.botStatus = .idle ∧
    (fetchBotStatus s (.resolved (some ⟨some st⟩) e)).1.botStatus = st := by
  refine ⟨rfl, rfl, rfl, rfl⟩

/-! ### C2 -/

/-- Claim C2 counterexample: a saveBuyConditions call whose patch empties
the allowed-DEX set is not rejected: the controller issues the persistence
call carrying an empty allowed_dexes set, reports success, and replaces the
in-memory settings with the returned row. -/
theorem saveBuy_empty_dexes_persisted_cex :
    (saveBuyConditions sampleState emptyDexesPatch (.ok sampleSettings)).2.1 = true ∧
    (saveBuyConditions sampleState emptyDexesPatch (.ok sampleSettings)).2.2 =
      [Event.persistUpdateBuy
         (mergeBuyConditions sampleSettings.buy_conditions emptyDexesPatch) "settings-1",
       Event.toast buyOkToast] ∧
    (mergeBuyConditions sampleSettings.buy_conditions emptyDexesPatch).allowed_dexes = [] :=
  ⟨rfl, rfl, rfl⟩

/-- Claim C2, amended: the empty allowed-DEX set is blocked only at the
form layer, not in the controller: the submit button of the buy-conditions
form is disabled whenever the selected DEX list is empty, so an enabled
submission always carries a non-empty list, while saveBuyConditions itself
performs no validation of the set. -/
theorem allowedDexes_guard_form_only (sub : Bool) (ds : List String)
    (h : buySubmitDisabled sub ds = false) : sub = false ∧ ds ≠ [] := by
  unfold buySubmitDisabled at h
  simp only [Bool.or_eq_false_iff] at h
  refine ⟨h.1, ?_⟩
  intro hd
  rw [hd] at h
  exact absurd h.2 (by decide)

/-- Witness for the amended C2 theorem at a concrete enabled submission. -/
theorem allowedDexes_guard_form_only_witness :
    buySubmitDisabled false ["jupiter"] = false ∧ (["jupiter"] : List String) ≠ [] :=
  ⟨by decide, (allowedDexes_guard_form_only false ["jupiter"] (by decide)).2⟩

/-! ### C5 -/

/-- Claim C5: merging a patch into one named section leaves the other three
sections byte-identical to their pre-merge values, and every field of the
named section that the patch omits keeps its previously-set value — a
shallow merge, not a replace. -/
theorem mergeSection_frame_and_retention (cur : BotSettings)
    (bq : BuyConditionsPatch) (sq : SellConditionsPatch)
    (rq : RiskControlPatch) (gq : GeneralSettingsPatch) :
    ((mergeSection cur (.buy bq)).sell_conditions = cur.sell_conditions ∧
     (mergeSection cur (.buy bq)).risk_control = cur.risk_control ∧
     generalOf (mergeSection cur (.buy bq)) = generalOf cur ∧
     (mergeSection cur (.sell sq)).buy_conditions = cur.buy_conditions ∧
     (mergeSection cur (.sell sq)).risk_control = cur.risk_control ∧
     generalOf (mergeSection cur (.sell sq)) = generalOf cur ∧
     (mergeSection cur (.risk rq)).buy_conditions = cur.buy_conditions ∧
     (mergeSection cur (.risk rq)).sell_conditions = cur.sell_conditions ∧
     generalOf (mergeSection cur (.risk rq)) = generalOf cur ∧
     (mergeSection cur (.general gq)).buy_conditions = cur.buy_conditions ∧
     (mergeSection cur (.general gq)).sell_conditions = cur.sell_conditions ∧
     (mergeSection cur (.general gq)).risk_control = cur.risk_control) ∧
    ((bq.minimum_liquidity = none →
        (mergeSection cur (.buy bq)).buy_conditions.minimum_liquidity =
          cur.buy_conditions.minimum_liquidity) ∧
     (bq.slippage = none →
        (mergeSection cur (.buy bq)).buy_conditions.slippage =
          cur.buy_conditions.slippage) ∧
     (bq.allowed_dexes = none →
        (mergeSection cur (.buy bq)).buy_conditions.allowed_dexes =
          cur.buy_conditions.allowed_dexes) ∧
     (bq.require_verified_contract = none →
        (mergeSection cur (.buy bq)).buy_conditions.require_verified_contract =
          cur.buy_conditions.require_verified_contract) ∧
     (bq.max_priority_fee = none →
        (mergeSection cur (.buy bq)).buy_conditions.max_priority_fee =
          cur.buy_conditions.max_priority_fee) ∧
     (bq.enable_antibot = none →
        (mergeSection cur (.buy bq)).buy_conditions.enable_antibot =
          cur.buy_conditions.enable_antibot) ∧
     (sq.target_profit = none →
        (mergeSection cur (.sell sq)).sell_conditions.target_profit =
          cur.sell_conditions.target_profit) ∧
     (sq.stop_loss = none →
        (mergeSection cur (.sell sq)).sell_conditions.stop_loss =
          cur.sell_conditions.stop_loss) ∧
     (sq.max_holding_time = none →
        (mergeSection cur (.sell sq)).sell_conditions.max_holding_time =
          cur.sell_conditions.max_holding_time) ∧
     (sq.sell_on_volatility_spike = none →
        (mergeSection cur (.sell sq)).sell_conditions.sell_on_volatility_spike =
          cur.sell_conditions.sell_on_volatility_spike) ∧
     (rq.position_size_percentage = none →
        (mergeSection cur (.risk rq)).risk_control.position_size_percentage =
          cur.risk_control.position_size_percentage) ∧
     (rq.max_open_trades = none →
        (mergeSection cur (.risk rq)).risk_control.max_open_trades =
          cur.risk_control.max_open_trades) ∧
     (rq.cooldown_period = none →
        (mergeSection cur (.risk rq)).risk_control.cooldown_period =
          cur.risk_control.cooldown_period) ∧
     (gq.rpc_url = none →
        (mergeSection cur (.general gq)).rpc_url = cur.rpc_url) ∧
     (gq.wallet_address = none →
        (mergeSection cur (.general gq)).wallet_address = cur.wallet_address) ∧
     (gq.telegram_enabled = none →
        (mergeSection cur (.general gq)).telegram_enabled = cur.telegram_enabled) ∧
     (gq.telegram_token = none →
        (mergeSection cur (.general gq)).telegram_token = cur.telegram_token) ∧
     (gq.telegram_chat_id = none →
        (mergeSection cur (.general gq)).telegram_chat_id = cur.telegram_chat_id)) := by
  constructor
  · refine ⟨rfl, rfl, rfl, rfl, rfl, rfl, rfl, rfl, rfl, rfl, rfl, rfl⟩
  · refine ⟨?_, ?_, ?_, ?_, ?_, ?_, ?_, ?_, ?_, ?_, ?_, ?_, ?_, ?_, ?_, ?_, ?_, ?_⟩ <;>
      (intro h;
       simp [mergeSection, mergeBuyConditions, mergeSellConditions, mergeRiskControl, h])

/-- Witness for C5 at a concrete document and the all-omitted buy patch. -/
theorem mergeSection_frame_and_retention_witness :
    (mergeSection sampleSettings (SectionPatch.buy emptyBuyPatch)).sell_conditions =
      sampleSettings.sell_conditions ∧
    (mergeSection sampleSettings (SectionPatch.buy emptyBuyPatch)).buy_conditions.minimum_liquidity =
      sampleSettings.buy_conditions.minimum_liquidity :=
  ⟨(mergeSection_frame_and_retention sampleSettings emptyBuyPatch emptySellPatch
      emptyRiskPatch emptyGeneralPatch).1.1,
   (mergeSection_frame_and_retention sampleSettings emptyBuyPatch emptySellPatch
      emptyRiskPatch emptyGeneralPatch).2.1 rfl⟩

/-! ### C8 -/

/-- Claim C8: when no settings document exists, a general-settings save
first issues an insert whose payload carries the patched wallet address and
whose buy, sell and risk sections equal the documented literal defaults. -/
theorem saveGeneral_creates_defaulted_document (s : ControllerState)
    (g : GeneralSettingsPatch) (repo : UpdateResult) (w : String)
    (hs : s.settings = none) (hw : g.wallet_address = some w) (hw2 : w ≠ "") :
    (saveGeneralSettings s g repo).2.2.head? =
      some (Event.persistInsertSettings (insertedGeneralDoc g)) ∧
    (insertedGeneralDoc g).wallet_address = w ∧
    (insertedGeneralDoc g).buy_conditions =
      { minimum_liquidity := 1000, slippage := 1,
        allowed_dexes := ["jupiter", "raydium"], require_verified_contract := true,
        max_priority_fee := 5 / 1000000, enable_antibot := true } ∧
    (insertedGeneralDoc g).sell_conditions =
      { target_profit := 20, stop_loss := 10, max_holding_time := 60,
        sell_on_volatility_spike := false } ∧
    (insertedGeneralDoc g).risk_control =
      { position_size_percentage := 5, max_open_trades := 3, cooldown_period := 30 } := by
  refine ⟨?_, ?_, rfl, rfl, rfl⟩
  · unfold saveGeneralSettings
    rw [hs]
    cases repo <;> rfl
  · unfold insertedGeneralDoc jsOrString
    rw [hw]
    simp [hw2]

/-- Witness for C8: from the empty initial state, saving a wallet address
issues the defaulted insert. -/
theorem saveGeneral_creates_defaulted_document_witness :
    (saveGeneralSettings initialState walletPatch (.err "store down")).2.2.head? =
      some (Event.persistInsertSettings (insertedGeneralDoc walletPatch)) ∧
    (insertedGeneralDoc walletPatch).wallet_address = "ABC123" :=
  ⟨(saveGeneral_creates_defaulted_document initialState walletPatch (.err "store down")
      "ABC123" rfl rfl (by decide)).1,
   (saveGeneral_creates_defaulted_document initialState walletPatch (.err "store down")
      "ABC123" rfl rfl (by decide)).2.1⟩

/-! ### C9 -/

/-- Claim C9: a buy, sell or risk section save made while no settings id
exists reports failure, emits only the error toast (no persistence call),
and leaves the controller state unchanged. -/
theorem saveSection_no_id_fails_unchanged (s : ControllerState)
    (bq : BuyConditionsPatch) (sq : SellConditionsPatch) (rq : RiskControlPatch)
    (repo : UpdateResult) (h : settingsIdPresent s.settings = false) :
    saveBuyConditions s bq repo = (s, false, [Event.toast noSettingsToast]) ∧
    saveSellConditions s sq repo = (s, false, [Event.toast noSettingsToast]) ∧
    saveRiskControl s rq repo = (s, false, [Event.toast noSettingsToast]) := by
  unfold saveBuyConditions saveSellConditions saveRiskControl
  simp [h]

/-- Witness for C9 at the empty initial state. -/
theorem saveSection_no_id_fails_unchanged_witness :
    saveBuyConditions initialState emptyBuyPatch (.err "store down") =
      (initialState, false, [Event.toast noSettingsToast]) :=
  (saveSection_no_id_fails_unchanged initialState emptyBuyPatch emptySellPatch
    emptyRiskPatch (.err "store down") rfl).1

/-! ### C10 -/

/-- Claim C10: whatever their patch and repository outcome, the buy, sell
and risk save operations never touch botStatus, tradeHistory or stats; only
the settings cell may change. -/
theorem saveSection_frame_on_status_history_stats (s : ControllerState)
    (bq : BuyConditionsPatch) (sq : SellConditionsPatch) (rq : RiskControlPatch)
    (repo : UpdateResult) :
    (saveBuyConditions s bq repo).1.botStatus = s.botStatus ∧
    (saveBuyConditions s bq repo).1.tradeHistory = s.tradeHistory ∧
    (saveBuyConditions s bq repo).1.stats = s.stats ∧
    (saveSellConditions s sq repo).1.botStatus = s.botStatus ∧
    (saveSellConditions s sq repo).1.tradeHistory = s.tradeHistory ∧
    (saveSellConditions s sq repo).1.stats = s.stats ∧
    (saveRiskControl s rq repo).1.botStatus = s.botStatus ∧
    (saveRiskControl s rq repo).1.tradeHistory = s.tradeHistory ∧
    (saveRiskControl s rq repo).1.stats = s.stats := by
  unfold saveBuyConditions saveSellConditions saveRiskControl
  cases hs : s.settings <;> cases repo <;> simp [hs] <;> split_ifs <;> simp

end RicoBot
